import Mathlib

/-!
Shallow embedding of the ts-stl thread-safe wrapper library
(src/wrapper.hpp and src/except.hpp).

The accessor classes `ts::shared_accessor` and `ts::unique_accessor` are
modelled as records holding the referenced container value, the owns-state of
their `std::shared_lock` / `std::unique_lock` member, and the millisecond
count of `__lock_timeout`. A bounded acquisition attempt
(`__lock.try_lock_for(__lock_timeout)`) is modelled by an explicit Boolean
parameter `acquired`: whether the underlying mutex became available to this
thread within the timeout. An unbounded acquisition (`__lock.lock()`) blocks
until the mutex is available and therefore always ends in the locked state,
so it is modelled as unconditional success. Throwing `ts::lock_timeout_error`
is modelled with `Except`.

The readers-writer admission discipline of `std::shared_timed_mutex` (the
mutex every `ts::wrapper` embeds) is modelled as a transition system over
counts of shared and exclusive holders, with the standard admission rules:
a shared grant requires no exclusive holder, an exclusive grant requires no
holder at all.
-/

namespace ts

/-- Embeds `ts::lock_timeout_error` (src/except.hpp:20-35): an exception
carrying a diagnostic message string. -/
structure lock_timeout_error where
  message : String
deriving DecidableEq

/-- Whether an `Except` result is a success (no exception escaped). -/
def succeeded {ε α : Type} : Except ε α → Bool
  | .ok _ => true
  | .error _ => false

/-- Embeds `ts::shared_accessor<_CT, _MT>` (src/wrapper.hpp:47-158):
`container` is the value of the referenced container, `owns_lock` the
owns-state of the `std::shared_lock` member `__lock`, `lock_timeout` the
millisecond count of `__lock_timeout`. -/
structure shared_accessor (CT : Type) where
  container : CT
  owns_lock : Bool
  lock_timeout : Int
deriving DecidableEq

/-- `shared_accessor::shared_accessor(const _CT&, _MT&)`
(src/wrapper.hpp:57-62): the lock is deferred (not owned) and
`__lock_timeout` is initialized to 10000 ms. -/
def shared_accessor.make {CT : Type} (c : CT) : shared_accessor CT :=
  ⟨c, false, 10000⟩

/-- `shared_accessor::set_lock_timeout` (src/wrapper.hpp:73-76). -/
def shared_accessor.set_lock_timeout {CT : Type} (a : shared_accessor CT)
    (ms : Int) : shared_accessor CT :=
  { a with lock_timeout := ms }

/-- `shared_accessor::lock()` (src/wrapper.hpp:83-95). `acquired` is whether
`__lock.try_lock_for(__lock_timeout)` obtained the shared lock within the
timeout; the negative-timeout branch calls the unbounded `__lock.lock()`,
which blocks until the lock is available and hence always ends locked. -/
def shared_accessor.lock {CT : Type} (a : shared_accessor CT)
    (acquired : Bool) : Except lock_timeout_error (shared_accessor CT) :=
  if a.owns_lock then .ok a
  else if a.lock_timeout < 0 then .ok { a with owns_lock := true }
  else if acquired then .ok { a with owns_lock := true }
  else .error ⟨"ts-stl/wrapper shared_accessor::lock()"⟩

/-- `shared_accessor::unlock()` (src/wrapper.hpp:100-104): releases only if
owned. -/
def shared_accessor.unlock {CT : Type} (a : shared_accessor CT) :
    shared_accessor CT :=
  if a.owns_lock then { a with owns_lock := false } else a

/-- `shared_accessor::operator->()` (src/wrapper.hpp:112-131): returns the
(read-only) container together with the accessor state after the implicit
acquisition. -/
def shared_accessor.arrow {CT : Type} (a : shared_accessor CT)
    (acquired : Bool) : Except lock_timeout_error (shared_accessor CT × CT) :=
  if a.owns_lock then .ok (a, a.container)
  else if a.lock_timeout < 0 then .ok ({ a with owns_lock := true }, a.container)
  else if acquired then .ok ({ a with owns_lock := true }, a.container)
  else .error ⟨"ts-stl/wrapper shared_accessor::operator->()"⟩

/-- `shared_accessor::operator*()` (src/wrapper.hpp:138-157). -/
def shared_accessor.star {CT : Type} (a : shared_accessor CT)
    (acquired : Bool) : Except lock_timeout_error (shared_accessor CT × CT) :=
  if a.owns_lock then .ok (a, a.container)
  else if a.lock_timeout < 0 then .ok ({ a with owns_lock := true }, a.container)
  else if acquired then .ok ({ a with owns_lock := true }, a.container)
  else .error ⟨"ts-stl/wrapper shared_accessor::operator*()"⟩

/-- Embeds `ts::unique_accessor<_CT, _MT>` (src/wrapper.hpp:175-286):
read-write accessor holding a `std::unique_lock`. -/
structure unique_accessor (CT : Type) where
  container : CT
  owns_lock : Bool
  lock_timeout : Int
deriving DecidableEq

/-- `unique_accessor::unique_accessor(_CT&, _MT&)` (src/wrapper.hpp:185-190):
deferred lock, `__lock_timeout` initialized to 10000 ms. -/
def unique_accessor.make {CT : Type} (c : CT) : unique_accessor CT :=
  ⟨c, false, 10000⟩

/-- `unique_accessor::set_lock_timeout` (src/wrapper.hpp:201-204). -/
def unique_accessor.set_lock_timeout {CT : Type} (a : unique_accessor CT)
    (ms : Int) : unique_accessor CT :=
  { a with lock_timeout := ms }

/-- `unique_accessor::lock()` (src/wrapper.hpp:211-223). -/
def unique_accessor.lock {CT : Type} (a : unique_accessor CT)
    (acquired : Bool) : Except lock_timeout_error (unique_accessor CT) :=
  if a.owns_lock then .ok a
  else if a.lock_timeout < 0 then .ok { a with owns_lock := true }
  else if acquired then .ok { a with owns_lock := true }
  else .error ⟨"ts-stl/wrapper unique_accessor::lock()"⟩

/-- `unique_accessor::unlock()` (src/wrapper.hpp:228-232). -/
def unique_accessor.unlock {CT : Type} (a : unique_accessor CT) :
    unique_accessor CT :=
  if a.owns_lock then { a with owns_lock := false } else a

/-- `unique_accessor::operator->()` (src/wrapper.hpp:240-259). -/
def unique_accessor.arrow {CT : Type} (a : unique_accessor CT)
    (acquired : Bool) : Except lock_timeout_error (unique_accessor CT × CT) :=
  if a.owns_lock then .ok (a, a.container)
  else if a.lock_timeout < 0 then .ok ({ a with owns_lock := true }, a.container)
  else if acquired then .ok ({ a with owns_lock := true }, a.container)
  else .error ⟨"ts-stl/wrapper unique_accessor::operator->()"⟩

/-- `unique_accessor::operator*()` (src/wrapper.hpp:266-285). -/
def unique_accessor.star {CT : Type} (a : unique_accessor CT)
    (acquired : Bool) : Except lock_timeout_error (unique_accessor CT × CT) :=
  if a.owns_lock then .ok (a, a.container)
  else if a.lock_timeout < 0 then .ok ({ a with owns_lock := true }, a.container)
  else if acquired then .ok ({ a with owns_lock := true }, a.container)
  else .error ⟨"ts-stl/wrapper unique_accessor::operator*()"⟩

/-- Embeds `ts::wrapper<_T>` (src/wrapper.hpp:296-420): the guarded value.
`container` is `__container`, `lock_timeout` the millisecond count of
`__lock_timeout`. The `std::shared_timed_mutex` member `__stmutex` has no
value content; its admission discipline is modelled by `RWStep` below. -/
structure wrapper (T : Type) where
  container : T
  lock_timeout : Int
deriving DecidableEq

/-- `wrapper::wrapper(_T&&)` (src/wrapper.hpp:309-313): moves the value in,
timeout 10000 ms. -/
def wrapper.of_move {T : Type} (v : T) : wrapper T := ⟨v, 10000⟩

/-- `wrapper::wrapper(const _T&)` (src/wrapper.hpp:314-318). Only the
`__lock_timeout(10000)` initializer is meaningful: the container initializer
is spelled `std::copy(_stl_init)` (wrapper.hpp:315), an invalid one-argument
call to the three-argument algorithm, so this constructor is ill-formed
whenever instantiated and constructs nothing; the theorems below use only
its timeout field. -/
def wrapper.of_copy {T : Type} (v : T) : wrapper T := ⟨v, 10000⟩

/-- `wrapper::wrapper()` (src/wrapper.hpp:319-321): default-constructed
container, timeout 10000 ms. -/
def wrapper.of_default (T : Type) [Inhabited T] : wrapper T := ⟨default, 10000⟩

/-- `wrapper::set_lock_timeout` (src/wrapper.hpp:376-379). -/
def wrapper.set_lock_timeout {T : Type} (w : wrapper T) (ms : Int) :
    wrapper T :=
  { w with lock_timeout := ms }

/-- Outcome of a `wrapper` copy or move constructor: whether the source's
mutex was actually locked while the members were read, and the constructed
wrapper. -/
structure ctor_result (T : Type) where
  lock_acquired : Bool
  constructed : wrapper T
deriving DecidableEq

/-- `wrapper::wrapper(const wrapper&)` (src/wrapper.hpp:324-330). The
member-initializer list is empty, so the `readlock.try_lock_for(__lock_timeout)`
inside the `assert` reads this object's still-uninitialized `__lock_timeout`;
`indet_timeout` is that indeterminate value. `ndebug` is whether the
translation unit is compiled with NDEBUG: the `assert` macro then discards
its argument unevaluated, so `try_lock_for` is never called and no lock is
taken. `acquired` is whether `try_lock_for(indet_timeout)` obtained the
shared lock. `none` is the aborted assertion (debug build, acquisition
failed). On top of the modelled behavior, the constructor is ill-formed
whenever instantiated, for two reasons the model cannot exhibit at runtime:
`readlock` is a `std::shared_lock` declared on the const source's mutex
`_other.__stmutex` (wrapper.hpp:326; the constructor needs a non-const mutex
reference), and the member copy is spelled `std::copy(_other.__container)`
(wrapper.hpp:328), an invalid one-argument call to the three-argument
algorithm. The evidently intended member copy is written here; the
ill-formedness itself is part of the C3/C6 code-bug findings. -/
def wrapper.copy_ctor {T : Type} (other : wrapper T) (ndebug : Bool)
    (_indet_timeout : Int) (acquired : Bool) : Option (ctor_result T) :=
  if ndebug then some ⟨false, ⟨other.container, other.lock_timeout⟩⟩
  else if acquired then some ⟨true, ⟨other.container, other.lock_timeout⟩⟩
  else none

/-- `wrapper::wrapper(wrapper&&)` (src/wrapper.hpp:331-337): same
`assert(writelock.try_lock_for(__lock_timeout))` pattern as the copy
constructor, but with an exclusive lock on the source and a genuine
`std::move` of the container. Returns the constructor outcome together with
the source left behind; `moved_from` is the valid-but-unspecified value the
moved-from container holds afterwards. The source's own `__lock_timeout` is
not modified. -/
def wrapper.move_ctor {T : Type} (other : wrapper T) (moved_from : T)
    (ndebug : Bool) (_indet_timeout : Int) (acquired : Bool) :
    Option (ctor_result T × wrapper T) :=
  if ndebug then
    some (⟨false, ⟨other.container, other.lock_timeout⟩⟩,
      ⟨moved_from, other.lock_timeout⟩)
  else if acquired then
    some (⟨true, ⟨other.container, other.lock_timeout⟩⟩,
      ⟨moved_from, other.lock_timeout⟩)
  else none

/-- Mode in which a lock on a `std::shared_timed_mutex` is taken. -/
inductive lock_mode
  | shared
  | exclusive
deriving DecidableEq

/-- Ghost trace of one `wrapper` assignment: which lock (if any) was taken on
each side, and whether the blocking `std::lock` call waited longer than the
configured timeout before both locks were obtained. -/
structure assign_trace where
  lhs_lock : Option lock_mode
  rhs_lock : Option lock_mode
  blocked_past_timeout : Bool
deriving DecidableEq

/-- `wrapper::operator=(wrapper&&)` (src/wrapper.hpp:352-364): `same` models
the `this == &_rhs` self-assignment test, which returns immediately without
touching any lock; on the non-self path both sides are locked for write by
`std::lock(lhs_write_lock, rhs_write_lock)`, which consults no timeout and
blocks until both are held, then the container is moved out of the source
and the timeout copied. `avail_within_timeout` is the ghost observation of
whether both locks became available within the configured timeout; the trace
records that `std::lock` kept blocking past it otherwise. Returns the
destination, the source left behind (`moved_from` is the
valid-but-unspecified moved-from container value; the source's own timeout
is not modified), and the trace. The sibling copy assignment
`wrapper::operator=(const wrapper&)` (src/wrapper.hpp:339-351) is not
modelled: its body is ill-formed whenever instantiated — the source read
lock is a `std::shared_lock` declared on the const source's mutex
`_rhs.__stmutex` (wrapper.hpp:345; the constructor needs a non-const mutex
reference) and its member copy is the one-argument
`std::copy(_rhs.__container)` (wrapper.hpp:347) — so copy assignment,
including self copy-assignment, is a compile error with no behavior to
embed. -/
def wrapper.assign_move {T : Type} (same : Bool) (lhs rhs : wrapper T)
    (moved_from : T) (avail_within_timeout : Bool) :
    Except lock_timeout_error (wrapper T × wrapper T × assign_trace) :=
  if same then .ok (lhs, rhs, ⟨none, none, false⟩)
  else .ok (⟨rhs.container, rhs.lock_timeout⟩, ⟨moved_from, rhs.lock_timeout⟩,
    ⟨some .exclusive, some .exclusive, !avail_within_timeout⟩)

/-- `wrapper::get_exclusive_access(bool)` (src/wrapper.hpp:392-399):
constructs a `unique_accessor` on the container and mutex, propagates the
wrapper's timeout, and if `aquire` is set calls `lock()` on it (whose
`lock_timeout_error`, if any, propagates to the caller). -/
def wrapper.get_exclusive_access {T : Type} (w : wrapper T) (aquire : Bool)
    (acquired : Bool) : Except lock_timeout_error (unique_accessor T) :=
  let accessor := (unique_accessor.make w.container).set_lock_timeout
    w.lock_timeout
  if aquire then accessor.lock acquired else .ok accessor

/-- `wrapper::get_shared_access(bool)` (src/wrapper.hpp:412-419). -/
def wrapper.get_shared_access {T : Type} (w : wrapper T) (aquire : Bool)
    (acquired : Bool) : Except lock_timeout_error (shared_accessor T) :=
  let accessor := (shared_accessor.make w.container).set_lock_timeout
    w.lock_timeout
  if aquire then accessor.lock acquired else .ok accessor

/-- State of one `std::shared_timed_mutex` (the `__stmutex` member of a
`ts::wrapper`): how many shared grants and how many exclusive grants are
currently held by accessors. -/
structure RWState where
  sharedHolders : Nat
  exclusiveHolders : Nat
deriving DecidableEq

/-- Admission discipline of `std::shared_timed_mutex`, as exercised by the
accessors: a successful `shared_accessor` acquisition (`lock()`,
`operator->`, `operator*`) requires that no exclusive grant is held; a
successful `unique_accessor` acquisition requires that no grant of either
kind is held; `unlock()` and accessor destruction release a held grant. -/
inductive RWStep : RWState → RWState → Prop
  | acquireShared (n : Nat) : RWStep ⟨n, 0⟩ ⟨n + 1, 0⟩
  | acquireExclusive : RWStep ⟨0, 0⟩ ⟨0, 1⟩
  | releaseShared (n e : Nat) : RWStep ⟨n + 1, e⟩ ⟨n, e⟩
  | releaseExclusive (n e : Nat) : RWStep ⟨n, e + 1⟩ ⟨n, e⟩

/-- Lock states reachable from the freshly constructed mutex (no holders) by
any interleaving of accessor acquisitions and releases. -/
inductive RWReachable : RWState → Prop
  | init : RWReachable ⟨0, 0⟩
  | step {s s' : RWState} : RWReachable s → RWStep s s' → RWReachable s'

end ts

/-- Claim C1: in every reachable state of a guarded value's readers-writer
lock, either no exclusive grant is held, or exactly one exclusive grant and
no shared grant is held — at most one exclusive accessor, or any number of
shared accessors, never both kinds simultaneously. -/
theorem c1_mutual_exclusion (s : ts.RWState) (h : ts.RWReachable s) :
    s.exclusiveHolders = 0 ∨
      (s.exclusiveHolders = 1 ∧ s.sharedHolders = 0) := by
  induction h with
  | init => exact Or.inl rfl
  | step _hr hs ih =>
    cases hs with
    | acquireShared n => exact Or.inl rfl
    | acquireExclusive => exact Or.inr ⟨rfl, rfl⟩
    | releaseShared n e =>
      rcases ih with h0 | ⟨h1, h2⟩
      · exact Or.inl h0
      · have h2' : n + 1 = 0 := h2
        exact absurd h2' (Nat.succ_ne_zero n)
    | releaseExclusive n e =>
      rcases ih with h0 | ⟨h1, h2⟩
      · have h0' : e + 1 = 0 := h0
        exact absurd h0' (Nat.succ_ne_zero e)
      · have h1' : e + 1 = 1 := h1
        have he : e = 0 := by omega
        exact Or.inl he

/-- Witness for C1 at the concrete reachable state with two shared holders. -/
theorem c1_mutual_exclusion_witness :
    ts.RWReachable ⟨2, 0⟩ ∧
      ((⟨2, 0⟩ : ts.RWState).exclusiveHolders = 0 ∨
        ((⟨2, 0⟩ : ts.RWState).exclusiveHolders = 1 ∧
          (⟨2, 0⟩ : ts.RWState).sharedHolders = 0)) := by
  have h : ts.RWReachable ⟨2, 0⟩ :=
    ts.RWReachable.step
      (ts.RWReachable.step ts.RWReachable.init (ts.RWStep.acquireShared 0))
      (ts.RWStep.acquireShared 1)
  exact ⟨h, c1_mutual_exclusion ⟨2, 0⟩ h⟩

/-- Claim C2: an accessor that does not already hold the lock and whose
timeout is non-negative makes exactly one bounded acquisition attempt at
every acquisition site — explicit `lock()`, implicit `operator->` or
`operator*`, and the eager acquisition inside the access factories — and
either ends holding the lock (when the lock became available within the
timeout) or fails right there with a `lock_timeout_error` whose message
names the failing operation; there is no internal retry. -/
theorem c2_lock_timeout_propagation :
    (∀ (CT : Type) (a : ts.shared_accessor CT),
        a.owns_lock = false → 0 ≤ a.lock_timeout →
          a.lock true = .ok { a with owns_lock := true } ∧
          a.lock false = .error ⟨"ts-stl/wrapper shared_accessor::lock()"⟩ ∧
          a.arrow true = .ok ({ a with owns_lock := true }, a.container) ∧
          a.arrow false
            = .error ⟨"ts-stl/wrapper shared_accessor::operator->()"⟩ ∧
          a.star true = .ok ({ a with owns_lock := true }, a.container) ∧
          a.star false
            = .error ⟨"ts-stl/wrapper shared_accessor::operator*()"⟩) ∧
    (∀ (CT : Type) (a : ts.unique_accessor CT),
        a.owns_lock = false → 0 ≤ a.lock_timeout →
          a.lock true = .ok { a with owns_lock := true } ∧
          a.lock false = .error ⟨"ts-stl/wrapper unique_accessor::lock()"⟩ ∧
          a.arrow true = .ok ({ a with owns_lock := true }, a.container) ∧
          a.arrow false
            = .error ⟨"ts-stl/wrapper unique_accessor::operator->()"⟩ ∧
          a.star true = .ok ({ a with owns_lock := true }, a.container) ∧
          a.star false
            = .error ⟨"ts-stl/wrapper unique_accessor::operator*()"⟩) ∧
    (∀ (T : Type) (w : ts.wrapper T), 0 ≤ w.lock_timeout →
        ts.succeeded (w.get_exclusive_access true true) = true ∧
        w.get_exclusive_access true false
          = .error ⟨"ts-stl/wrapper unique_accessor::lock()"⟩ ∧
        ts.succeeded (w.get_shared_access true true) = true ∧
        w.get_shared_access true false
          = .error ⟨"ts-stl/wrapper shared_accessor::lock()"⟩) := by
  refine ⟨?_, ?_, ?_⟩
  · intro CT a hown htime
    have hnotneg : ¬a.lock_timeout < 0 := not_lt.mpr htime
    simp [ts.shared_accessor.lock, ts.shared_accessor.arrow,
      ts.shared_accessor.star, hown, hnotneg]
  · intro CT a hown htime
    have hnotneg : ¬a.lock_timeout < 0 := not_lt.mpr htime
    simp [ts.unique_accessor.lock, ts.unique_accessor.arrow,
      ts.unique_accessor.star, hown, hnotneg]
  · intro T w htime
    have hnotneg : ¬w.lock_timeout < 0 := not_lt.mpr htime
    simp [ts.wrapper.get_exclusive_access, ts.wrapper.get_shared_access,
      ts.unique_accessor.lock, ts.shared_accessor.lock,
      ts.unique_accessor.make, ts.shared_accessor.make,
      ts.unique_accessor.set_lock_timeout, ts.shared_accessor.set_lock_timeout,
      ts.succeeded, hnotneg]

/-- Witness for C2 at concrete unlocked accessors with timeout 100 ms whose
lock does not become available in time. -/
theorem c2_lock_timeout_propagation_witness :
    ((⟨5, false, 100⟩ : ts.shared_accessor Nat).lock false
        = .error ⟨"ts-stl/wrapper shared_accessor::lock()"⟩) ∧
    ((⟨5, false, 100⟩ : ts.unique_accessor Nat).arrow false
        = .error ⟨"ts-stl/wrapper unique_accessor::operator->()"⟩) ∧
    ((⟨5, 100⟩ : ts.wrapper Nat).get_exclusive_access true false
        = .error ⟨"ts-stl/wrapper unique_accessor::lock()"⟩) := by
  refine ⟨?_, ?_, ?_⟩
  · exact (c2_lock_timeout_propagation.1 Nat ⟨5, false, 100⟩ rfl
      (by decide)).2.1
  · exact (c2_lock_timeout_propagation.2.1 Nat ⟨5, false, 100⟩ rfl
      (by decide)).2.2.2.1
  · exact (c2_lock_timeout_propagation.2.2 Nat ⟨5, 100⟩ (by decide)).2.1

/-- Claim C3 (code-bug exhibit): in an NDEBUG build the `assert` in
`wrapper::wrapper(const wrapper&)` discards its argument unevaluated, so the
copy constructor never calls `try_lock_for`, takes no lock on the source, and
silently proceeds: here, with the source's lock unavailable
(`acquired = false`), construction still succeeds with
`lock_acquired = false` instead of failing loudly. -/
theorem c3_copy_ctor_silent_without_lock :
    ts.wrapper.copy_ctor (⟨42, 5000⟩ : ts.wrapper Nat) true 0 false
      = some ⟨false, ⟨42, 5000⟩⟩ := rfl

/-- Claim C4 counterexample: move assignment between two distinct guarded
values whose locks do not become available within the configured timeout
(`avail_within_timeout = false`) does not fail at all — `std::lock` consults
no timeout, so the assignment keeps blocking past the timeout
(`blocked_past_timeout = true` in the trace) and then completes normally,
against the claimed loud, timeout-bounded failure. (The claim's copy half
has no behavior at all: copy assignment is ill-formed and does not compile;
see `ts.wrapper.assign_move`.) -/
theorem c4_assignment_not_timeout_bounded :
    ts.wrapper.assign_move false (⟨1, 10000⟩ : ts.wrapper Nat) ⟨2, 7⟩ 0 false
      = .ok (⟨2, 7⟩, ⟨0, 7⟩, ⟨some .exclusive, some .exclusive, true⟩) ∧
    ts.succeeded
      (ts.wrapper.assign_move false (⟨1, 10000⟩ : ts.wrapper Nat) ⟨2, 7⟩ 0
        false) = true :=
  ⟨rfl, rfl⟩

/-- Claim C4 (amended): move assignment between two distinct guarded values
is not timeout-bounded: both write locks are acquired by the blocking
`std::lock`, which consults no timeout, so the assignment never fails with a
timeout error and instead blocks past the configured timeout whenever the
locks are not available within it. (Copy assignment between two guarded
values is ill-formed and does not compile, so no timeout-bounded failure
exists there either.) -/
theorem c4_assignment_blocks_unbounded :
    ∀ (T : Type) (lhs rhs : ts.wrapper T) (moved_from : T) (avail : Bool),
      ts.wrapper.assign_move false lhs rhs moved_from avail
        = .ok (⟨rhs.container, rhs.lock_timeout⟩,
            ⟨moved_from, rhs.lock_timeout⟩,
            ⟨some .exclusive, some .exclusive, !avail⟩) ∧
      ts.succeeded (ts.wrapper.assign_move false lhs rhs moved_from avail)
        = true :=
  fun _ _ _ _ _ => ⟨rfl, rfl⟩

/-- Claim C5 (code-bug exhibit, move half): move assignment between two
distinct guarded values does lock both sides for write jointly through the
deadlock-avoiding `std::lock` (trace: exclusive on both sides, taken as one
joint acquisition). The copy half of the claim and the `a = b` / `b = a`
cross-assignment scenario cannot be exercised at all:
`wrapper::operator=(const wrapper&)` is ill-formed — its source read lock is
declared on the const source's mutex (wrapper.hpp:345) and its member copy
is a one-argument `std::copy` call (wrapper.hpp:347) — so the claimed
destination-write/source-read joint locking never occurs in a compiled
program. -/
theorem c5_move_assignment_joint_write_locks :
    ts.wrapper.assign_move false (⟨3, 10⟩ : ts.wrapper Nat) ⟨9, 20⟩ 0 true
      = .ok (⟨9, 20⟩, ⟨0, 20⟩, ⟨some .exclusive, some .exclusive, false⟩) :=
  rfl

/-- Claim C6 (code-bug exhibit, move half): move construction hands the new
wrapper the source's original value (here 7) and leaves the source with a
valid-but-unspecified container (here the placeholder 0), its timeout
untouched. The copy half of the claim cannot even be exercised: the copy
constructor's member copy `std::copy(_other.__container)` is an ill-formed
one-argument call to the three-argument algorithm, so copy construction of a
wrapper does not compile. -/
theorem c6_move_ctor_value_semantics :
    ts.wrapper.move_ctor (⟨7, 10000⟩ : ts.wrapper Nat) 0 false 0 true
      = some (⟨true, ⟨7, 10000⟩⟩, ⟨0, 10000⟩) := rfl

/-- Claim C7: an accessor whose timeout is negative never fails with a
timeout error: explicit `lock()` and the implicit acquisitions in
`operator->` and `operator*` all take the unbounded blocking branch
(`__lock.lock()`), which waits until the lock is available, for both
accessor kinds and regardless of whether the lock was available within any
bounded time. -/
theorem c7_negative_timeout_never_times_out :
    (∀ (CT : Type) (a : ts.shared_accessor CT) (acq : Bool),
        a.lock_timeout < 0 →
          ts.succeeded (a.lock acq) = true ∧
          ts.succeeded (a.arrow acq) = true ∧
          ts.succeeded (a.star acq) = true) ∧
    (∀ (CT : Type) (a : ts.unique_accessor CT) (acq : Bool),
        a.lock_timeout < 0 →
          ts.succeeded (a.lock acq) = true ∧
          ts.succeeded (a.arrow acq) = true ∧
          ts.succeeded (a.star acq) = true) := by
  constructor
  · intro CT a acq hneg
    cases howns : a.owns_lock <;>
      simp [ts.shared_accessor.lock, ts.shared_accessor.arrow,
        ts.shared_accessor.star, ts.succeeded, howns, hneg]
  · intro CT a acq hneg
    cases howns : a.owns_lock <;>
      simp [ts.unique_accessor.lock, ts.unique_accessor.arrow,
        ts.unique_accessor.star, ts.succeeded, howns, hneg]

/-- Witness for C7 at concrete accessors with timeout -1 and the lock not
available within any bounded time. -/
theorem c7_negative_timeout_never_times_out_witness :
    ts.succeeded ((⟨0, false, -1⟩ : ts.shared_accessor Nat).lock false)
      = true ∧
    ts.succeeded ((⟨0, false, -1⟩ : ts.unique_accessor Nat).star false)
      = true :=
  ⟨(c7_negative_timeout_never_times_out.1 Nat ⟨0, false, -1⟩ false
      (by decide)).1,
   (c7_negative_timeout_never_times_out.2 Nat ⟨0, false, -1⟩ false
      (by decide)).2.2⟩

/-- Claim C8: on either accessor kind, `lock()` on an accessor already
holding the lock is a no-op success returning the unchanged accessor (so a
second `lock()` in a row cannot deadlock against itself), the implicit
acquisitions in `operator->` and `operator*` are likewise no-ops when the
lock is held, and `unlock()` on an accessor not holding the lock is a
no-op. -/
theorem c8_lock_unlock_idempotent :
    (∀ (CT : Type) (a : ts.shared_accessor CT) (acq : Bool),
        a.owns_lock = true →
          a.lock acq = .ok a ∧ a.arrow acq = .ok (a, a.container) ∧
          a.star acq = .ok (a, a.container)) ∧
    (∀ (CT : Type) (a : ts.shared_accessor CT),
        a.owns_lock = false → a.unlock = a) ∧
    (∀ (CT : Type) (a : ts.unique_accessor CT) (acq : Bool),
        a.owns_lock = true →
          a.lock acq = .ok a ∧ a.arrow acq = .ok (a, a.container) ∧
          a.star acq = .ok (a, a.container)) ∧
    (∀ (CT : Type) (a : ts.unique_accessor CT),
        a.owns_lock = false → a.unlock = a) := by
  refine ⟨?_, ?_, ?_, ?_⟩
  · intro CT a acq h
    simp [ts.shared_accessor.lock, ts.shared_accessor.arrow,
      ts.shared_accessor.star, h]
  · intro CT a h
    simp [ts.shared_accessor.unlock, h]
  · intro CT a acq h
    simp [ts.unique_accessor.lock, ts.unique_accessor.arrow,
      ts.unique_accessor.star, h]
  · intro CT a h
    simp [ts.unique_accessor.unlock, h]

/-- Witness for C8 at concrete held and unheld accessors. -/
theorem c8_lock_unlock_idempotent_witness :
    ((⟨3, true, 10⟩ : ts.shared_accessor Nat).lock true
        = .ok ⟨3, true, 10⟩) ∧
    ((⟨3, false, 10⟩ : ts.shared_accessor Nat).unlock = ⟨3, false, 10⟩) ∧
    ((⟨3, true, 10⟩ : ts.unique_accessor Nat).lock false
        = .ok ⟨3, true, 10⟩) ∧
    ((⟨3, false, 10⟩ : ts.unique_accessor Nat).unlock = ⟨3, false, 10⟩) :=
  ⟨(c8_lock_unlock_idempotent.1 Nat ⟨3, true, 10⟩ true rfl).1,
   c8_lock_unlock_idempotent.2.1 Nat ⟨3, false, 10⟩ rfl,
   (c8_lock_unlock_idempotent.2.2.1 Nat ⟨3, true, 10⟩ false rfl).1,
   c8_lock_unlock_idempotent.2.2.2 Nat ⟨3, false, 10⟩ rfl⟩

/-- Claim C9 (code-bug exhibit, move half): self move-assignment is detected
by the `this == &_rhs` test and short-circuits — no lock is taken on either
side and the wrapper's container and timeout come back unchanged. The copy
half cannot be exercised: the same `this == &_rhs` check is present in
`wrapper::operator=(const wrapper&)` (wrapper.hpp:341), but any use of copy
assignment instantiates that operator's ill-formed body (wrapper.hpp:345,
:347), so `a = a` is a compile error rather than a detected no-op. -/
theorem c9_self_move_assignment_noop :
    ∀ (T : Type) (w : ts.wrapper T) (moved_from : T) (avail : Bool),
      ts.wrapper.assign_move true w w moved_from avail
        = .ok (w, w, ⟨none, none, false⟩) :=
  fun _ _ _ _ => rfl

/-- Claim C10: every wrapper value constructor (move-in, copy-in, default)
and every directly constructed accessor starts with a lock timeout of
exactly 10000 ms; `set_lock_timeout` replaces it, and the access factories
override a fresh accessor's default with the wrapper's current timeout. -/
theorem c10_default_timeout_10000 :
    (∀ (T : Type) (v : T),
        (ts.wrapper.of_move v).lock_timeout = 10000 ∧
        (ts.wrapper.of_copy v).lock_timeout = 10000) ∧
    (∀ (T : Type) [Inhabited T],
        (ts.wrapper.of_default T).lock_timeout = 10000) ∧
    (∀ (CT : Type) (c : CT),
        (ts.shared_accessor.make c).lock_timeout = 10000 ∧
        (ts.unique_accessor.make c).lock_timeout = 10000) ∧
    (∀ (T : Type) (w : ts.wrapper T) (ms : Int),
        (w.set_lock_timeout ms).lock_timeout = ms) ∧
    (∀ (T : Type) (w : ts.wrapper T) (acq : Bool),
        w.get_shared_access false acq
          = .ok ((ts.shared_accessor.make w.container).set_lock_timeout
              w.lock_timeout)) :=
  ⟨fun _ _ => ⟨rfl, rfl⟩, fun _ => rfl, fun _ _ => ⟨rfl, rfl⟩,
   fun _ _ _ => rfl, fun _ _ _ => rfl⟩
